import Mathlib

/-!
Verification development for the call-control sample and its SDK surface.

The repository consists of a demo (`src/index.js`, `src/call-control.js`)
wired over the `@gnaudio/jabra-js` call-control SDK, whose public surface is
declared in `browser-esm/index.d.ts`.  The definitions below embed:

* the `SignalType`, `ValueType` and usage-error vocabulary from
  `browser-esm/index.d.ts`;
* the lock-arbitration, call-control state machine, signal handling and
  session-reset behaviour; the implementations of these live behind the
  declaration file, so they are modelled from the specification (each such
  definition carries a `Modelled from the spec:` doc comment);
* the device-list wiring of the sample (`src/index.js`).
-/

/-- The closed enumeration of device signal codes, embedded from the
`SignalType` enum of `browser-esm/index.d.ts` (lines 516-574). -/
inductive SignalType
  | HOOK_SWITCH
  | FLASH
  | ALT_HOLD
  | REDIAL
  | ONLINE
  | SPEAKER_PHONE
  | PHONE_MUTE
  | SEND
  | SPEED_DIAL
  | VOICE_MAIL
  | ANSWER_ON_OFF
  | LINE_BUSY
  | RINGER
  | PHONE_KEY_0
  | PHONE_KEY_1
  | PHONE_KEY_2
  | PHONE_KEY_3
  | PHONE_KEY_4
  | PHONE_KEY_5
  | PHONE_KEY_6
  | PHONE_KEY_7
  | PHONE_KEY_8
  | PHONE_KEY_9
  | PHONE_KEY_STAR
  | PHONE_KEY_POUND
  | ALT_VOLUME_UP
  | ALT_VOLUME_DOWN
  | REJECT_CALL
deriving DecidableEq

/-- The numeric code each `SignalType` member is declared with in
`browser-esm/index.d.ts`. -/
def SignalType.code : SignalType → Nat
  | .HOOK_SWITCH => 32
  | .FLASH => 33
  | .ALT_HOLD => 35
  | .REDIAL => 36
  | .ONLINE => 42
  | .SPEAKER_PHONE => 43
  | .PHONE_MUTE => 47
  | .SEND => 49
  | .SPEED_DIAL => 80
  | .VOICE_MAIL => 112
  | .ANSWER_ON_OFF => 116
  | .LINE_BUSY => 151
  | .RINGER => 158
  | .PHONE_KEY_0 => 176
  | .PHONE_KEY_1 => 177
  | .PHONE_KEY_2 => 178
  | .PHONE_KEY_3 => 179
  | .PHONE_KEY_4 => 180
  | .PHONE_KEY_5 => 181
  | .PHONE_KEY_6 => 182
  | .PHONE_KEY_7 => 183
  | .PHONE_KEY_8 => 184
  | .PHONE_KEY_9 => 185
  | .PHONE_KEY_STAR => 186
  | .PHONE_KEY_POUND => 187
  | .ALT_VOLUME_UP => 233
  | .ALT_VOLUME_DOWN => 234
  | .REJECT_CALL => 65533

/-- Every member of the `SignalType` enum, in declaration order
(`browser-esm/index.d.ts` lines 516-574). -/
def allSignalTypes : List SignalType :=
  [.HOOK_SWITCH, .FLASH, .ALT_HOLD, .REDIAL, .ONLINE, .SPEAKER_PHONE,
   .PHONE_MUTE, .SEND, .SPEED_DIAL, .VOICE_MAIL, .ANSWER_ON_OFF, .LINE_BUSY,
   .RINGER, .PHONE_KEY_0, .PHONE_KEY_1, .PHONE_KEY_2, .PHONE_KEY_3,
   .PHONE_KEY_4, .PHONE_KEY_5, .PHONE_KEY_6, .PHONE_KEY_7, .PHONE_KEY_8,
   .PHONE_KEY_9, .PHONE_KEY_STAR, .PHONE_KEY_POUND, .ALT_VOLUME_UP,
   .ALT_VOLUME_DOWN, .REJECT_CALL]

/-- The `ValueType` enum of `browser-esm/index.d.ts` (lines 615-618):
whether a signal's value is the literal new state or a toggle. -/
inductive ValueType
  | ABSOLUTE
  | RELATIVE
deriving DecidableEq

/-- A typed device signal, embedded from `IDeviceSignal`
(`browser-esm/index.d.ts` lines 340-368): a signal type, a boolean value
and a value semantics tag. -/
structure DeviceSignal where
  type : SignalType
  value : Bool
  valueType : ValueType
deriving DecidableEq

/-- The four call-control operations exposed by `IDevice`
(`browser-esm/index.d.ts`): `ring`, `offHook`, `mute`, `hold`.  Each also
names the orthogonal boolean axis of derived call-control state it drives. -/
inductive CCOp
  | ring
  | offHook
  | mute
  | hold
deriving DecidableEq

/-- Usage-error vocabulary (`ErrorType.SDK_USAGE_ERROR` cases distinguished
by the spec's ErrorTaxonomy): double-acquire, releasing an unheld lock, and
operating without the lock (the latter naming the attempted operation). -/
inductive UsageError
  | AlreadyHeld
  | NotHeld
  | LockNotHeld (op : CCOp)
deriving DecidableEq

/-- A logical command forwarded to the transport collaborator: the driven
axis and the requested boolean target state. -/
structure Command where
  op : CCOp
  target : Bool
deriving DecidableEq

namespace LockManager

/-- Modelled from the spec: the LockManager implementation is absent from
`src` (only the `takeCallLock`/`releaseCallLock` declarations exist in
`browser-esm/index.d.ts`).  The call-lock state is the collection of holder
tokens; it is created unheld (empty) at device attach.  Using a list rather
than an option makes the at-most-one-holder invariant a property of the
operations rather than of the representation. -/
def initialLock : List String := []

/-- Modelled from the spec: `isHeldBy(requester) -> bool`, a pure query with
no side effects. -/
def isHeldBy (s : List String) (r : String) : Bool :=
  decide (r ∈ s)

/-- Modelled from the spec: `acquire(requester) -> Result<bool, UsageError>`.
Fails with `UsageError::AlreadyHeld` when the requester already holds the
lock; returns `true` (transitioning unheld to held-by-requester) when the
lock is unheld; returns `false` without altering the state when another
requester holds it. -/
def acquire (s : List String) (r : String) :
    Except UsageError (Bool × List String) :=
  if r ∈ s then
    Except.error UsageError.AlreadyHeld
  else if s.isEmpty then
    Except.ok (true, [r])
  else
    Except.ok (false, s)

/-- Modelled from the spec: `release(requester) -> Result<(), UsageError>`.
Transitions held-by-requester to unheld; fails with `UsageError::NotHeld`
when the requester does not currently hold the lock (nobody holds it, or
another holder does). -/
def release (s : List String) (r : String) :
    Except UsageError (List String) :=
  if r ∈ s then
    Except.ok (s.filter (fun x => x ≠ r))
  else
    Except.error UsageError.NotHeld

end LockManager

/-- An acquire or release request by some requester, for reasoning about
arbitrary sequences of lock operations on one device. -/
inductive LockOp
  | acq (r : String)
  | rel (r : String)
deriving DecidableEq

/-- One lock operation applied to the lock state: a failed operation (a
usage error) leaves the state unchanged. -/
def stepLock (s : List String) : LockOp → List String
  | .acq r =>
    match LockManager.acquire s r with
    | .ok (_, s') => s'
    | .error _ => s
  | .rel r =>
    match LockManager.release s r with
    | .ok s' => s'
    | .error _ => s

/-- The lock state reached by running a sequence of acquire/release
operations from the initial (unheld) state. -/
def runLockOps (ops : List LockOp) : List String :=
  ops.foldl stepLock LockManager.initialLock

/-- Derived call-control state: four orthogonal boolean flags
(`offHook`, `ringing`, `muted`, `held`), per the spec's
CallControlStateMachine and `IDevice`'s operation surface. -/
structure CCState where
  offHook : Bool
  ringing : Bool
  muted : Bool
  held : Bool
deriving DecidableEq

/-- The call-control state at device attach: all flags false. -/
def initialCCState : CCState :=
  ⟨false, false, false, false⟩

/-- Reads the flag of one call-control axis. -/
def getFlag (a : CCOp) (st : CCState) : Bool :=
  match a with
  | .ring => st.ringing
  | .offHook => st.offHook
  | .mute => st.muted
  | .hold => st.held

/-- Writes the flag of one call-control axis. -/
def setFlag (a : CCOp) (b : Bool) (st : CCState) : CCState :=
  match a with
  | .ring => { st with ringing := b }
  | .offHook => { st with offHook := b }
  | .mute => { st with muted := b }
  | .hold => { st with held := b }

/-- Modelled from the spec: the CallControlStateMachine implementation is
absent from `src` (only the `ring`/`offHook`/`mute`/`hold` declarations
exist in `browser-esm/index.d.ts`).  Invoking an operation first checks,
via LockManager, that the issuing requester holds the call lock; a
violation fails with `UsageError::LockNotHeld` naming the operation and
forwards nothing.  On success one logical command is forwarded to the
transport and the local flag is left unchanged (the flag is reported state,
updated only by an acknowledging signal). -/
def ccInvoke (lock : List String) (requester : String) (op : CCOp)
    (target : Bool) (st : CCState) :
    Except UsageError (CCState × List Command) :=
  if LockManager.isHeldBy lock requester then
    Except.ok (st, [⟨op, target⟩])
  else
    Except.error (UsageError.LockNotHeld op)

/-- The commands an invocation forwarded to the transport collaborator:
none when the invocation failed. -/
def commandsOf : Except UsageError (CCState × List Command) → List Command
  | .ok (_, cs) => cs
  | .error _ => []

/-- The call-control state after an invocation: unchanged when the
invocation failed. -/
def stateAfter (st : CCState) :
    Except UsageError (CCState × List Command) → CCState
  | .ok (st', _) => st'
  | .error _ => st

/-- Modelled from the spec: the axis of tracked call-control state a signal
acknowledges, per `browser-esm/index.d.ts` signal documentation —
`PHONE_MUTE` reports the mute state, `RINGER` the ring effect,
`HOOK_SWITCH` the off-hook state, `FLASH` hold/resume; other signals do not
correspond to a tracked axis. -/
def axisOf : SignalType → Option CCOp
  | .PHONE_MUTE => some .mute
  | .RINGER => some .ring
  | .HOOK_SWITCH => some .offHook
  | .FLASH => some .hold
  | _ => none

/-- Modelled from the spec: how the state machine folds an inbound signal
into the tracked flags.  An absolute signal sets the corresponding flag to
the signal's literal value; a relative signal toggles the flag from its
previous value; a signal with no tracked axis leaves the state unchanged
(`IDeviceSignal.valueType` documentation, `browser-esm/index.d.ts` lines
349-363). -/
def applySignal (sig : DeviceSignal) (st : CCState) : CCState :=
  match axisOf sig.type with
  | none => st
  | some a =>
    match sig.valueType with
    | .ABSOLUTE => setFlag a sig.value st
    | .RELATIVE => setFlag a (!(getFlag a st)) st

/-- Per-device session state: the call-lock holders, the tracked
call-control flags, and the status of the published signal sequence
(whether it has ended, and whether it ended with an error). -/
structure SessionState where
  lock : List String
  flags : CCState
  streamDone : Bool
  streamErrored : Bool
deriving DecidableEq

/-- Modelled from the spec: device detach or transport loss mid-session —
the implementation is absent from `src`.  It resets the call lock to
unheld, resets all call-control flags to false, and ends the signal
sequence normally (completed, not errored). -/
def detach (_s : SessionState) : SessionState :=
  { lock := LockManager.initialLock
    flags := initialCCState
    streamDone := true
    streamErrored := false }

/-- Modelled from the spec: delivery of one device signal to a session.
After the signal sequence has ended no further element is delivered
(`none`); otherwise the state machine folds the signal into the tracked
flags before it is forwarded to subscribers. -/
def deliverSignal (s : SessionState) (sig : DeviceSignal) :
    Option SessionState :=
  if s.streamDone then
    none
  else
    some { s with flags := applySignal sig s.flags }

/-- Device identity, embedded from `IDevice`'s read-only identity fields
(`browser-esm/index.d.ts` lines 197-232). -/
structure Device where
  id : String
  name : String
  vendorId : Nat
  productId : Nat
  browserLabel : String
deriving DecidableEq

/-- The device-list subscription callback of the sample
(`src/index.js` lines 16-20): when the emitted list contains exactly one
device, call control is wired to that device (`callControl(devices[0])`);
otherwise nothing is wired. -/
def onDeviceList (devices : List Device) : Option Device :=
  if devices.length = 1 then
    devices.head?
  else
    none

/-- The length of a lock state is preserved below two by every single
acquire/release step: acquire only installs a holder when the state is
empty, release only removes holders, and failed operations change
nothing. -/
theorem stepLock_length_le_one (s : List String) (op : LockOp)
    (h : s.length ≤ 1) : (stepLock s op).length ≤ 1 := by
  cases op with
  | acq r =>
    by_cases hm : r ∈ s
    · simpa [stepLock, LockManager.acquire, hm] using h
    · by_cases he : s.isEmpty = true
      · simp [stepLock, LockManager.acquire, hm, he]
      · simpa [stepLock, LockManager.acquire, hm, he] using h
  | rel r =>
    by_cases hm : r ∈ s
    · simp only [stepLock, LockManager.release, if_pos hm]
      exact le_trans (List.length_filter_le _ _) h
    · simpa [stepLock, LockManager.release, hm] using h

/-- Every lock state reachable from the initial unheld state by a sequence
of acquire/release operations has at most one holder token. -/
theorem runLockOps_length_le_one (ops : List LockOp) :
    (runLockOps ops).length ≤ 1 := by
  suffices h : ∀ s : List String, s.length ≤ 1 →
      (ops.foldl stepLock s).length ≤ 1 by
    exact h LockManager.initialLock (by simp [LockManager.initialLock])
  induction ops with
  | nil => intro s hs; simpa using hs
  | cons op rest ih =>
    intro s hs
    simpa [List.foldl] using ih (stepLock s op) (stepLock_length_le_one s op hs)

/-- C1: acquiring the call lock while the same requester already holds it
fails with `UsageError::AlreadyHeld` and never resolves with `false`; the
`false` result is reserved for contention by a different holder. -/
theorem takeCallLock_doubleAcquire_alreadyHeld (s : List String) (r : String)
    (h : r ∈ s) :
    LockManager.acquire s r = Except.error UsageError.AlreadyHeld ∧
    ∀ s' : List String, LockManager.acquire s r ≠ Except.ok (false, s') := by
  refine ⟨by simp [LockManager.acquire, h], fun s' => ?_⟩
  simp [LockManager.acquire, h]

/-- Witness for C1 at the concrete state where "a" holds the lock. -/
theorem takeCallLock_doubleAcquire_alreadyHeld_witness :
    "a" ∈ ["a"] ∧
    LockManager.acquire ["a"] "a" = Except.error UsageError.AlreadyHeld :=
  ⟨by decide,
   (takeCallLock_doubleAcquire_alreadyHeld ["a"] "a" (by decide)).1⟩

/-- C2: invoking any of `ring`, `offHook`, `mute`, `hold` without holding
the call lock fails with `UsageError::LockNotHeld` naming the operation,
forwards no command to the transport, and leaves the call-control state
unchanged. -/
theorem ccOps_without_lock_fail (lock : List String) (requester : String)
    (op : CCOp) (target : Bool) (st : CCState)
    (h : requester ∉ lock) :
    ccInvoke lock requester op target st
      = Except.error (UsageError.LockNotHeld op) ∧
    commandsOf (ccInvoke lock requester op target st) = [] ∧
    stateAfter st (ccInvoke lock requester op target st) = st := by
  have hb : LockManager.isHeldBy lock requester = false := by
    simp [LockManager.isHeldBy, h]
  refine ⟨?_, ?_, ?_⟩ <;> simp [ccInvoke, hb, commandsOf, stateAfter]

/-- Witness for C2: a `ring(true)` attempt with the lock unheld. -/
theorem ccOps_without_lock_fail_witness :
    "a" ∉ ([] : List String) ∧
    ccInvoke [] "a" CCOp.ring true initialCCState
      = Except.error (UsageError.LockNotHeld CCOp.ring) ∧
    commandsOf (ccInvoke [] "a" CCOp.ring true initialCCState) = [] :=
  ⟨by decide,
   (ccOps_without_lock_fail [] "a" CCOp.ring true initialCCState
      (by decide)).1,
   (ccOps_without_lock_fail [] "a" CCOp.ring true initialCCState
      (by decide)).2.1⟩

/-- C3: acquiring the call lock while a different requester holds it
resolves with `false` (not an error) and leaves the lock state — hence the
holder — unchanged. -/
theorem takeCallLock_contention_returns_false (s : List String)
    (a b : String) (ha : a ∈ s) (hb : b ∉ s) :
    LockManager.acquire s b = Except.ok (false, s) := by
  cases s with
  | nil => cases ha
  | cons x xs => simp [LockManager.acquire, hb]

/-- Witness for C3: "b" contends while "a" holds the lock. -/
theorem takeCallLock_contention_returns_false_witness :
    "a" ∈ ["a"] ∧ "b" ∉ ["a"] ∧
    LockManager.acquire ["a"] "b" = Except.ok (false, ["a"]) :=
  ⟨by decide, by decide,
   takeCallLock_contention_returns_false ["a"] "a" "b" (by decide)
     (by decide)⟩

/-- C4: releasing the call lock without holding it (nobody holds it, or
another requester does) fails with `UsageError::NotHeld`; release by the
true holder transitions the lock to unheld, after which an acquire by any
requester succeeds with `true`. -/
theorem releaseCallLock_semantics (s : List String) (r : String) :
    (r ∉ s → LockManager.release s r = Except.error UsageError.NotHeld) ∧
    (s.length ≤ 1 → r ∈ s →
      LockManager.release s r = Except.ok [] ∧
      ∀ r' : String, LockManager.acquire [] r' = Except.ok (true, [r'])) := by
  refine ⟨fun h => by simp [LockManager.release, h], fun hlen hmem => ?_⟩
  have hs : s = [r] := by
    cases s with
    | nil => cases hmem
    | cons x xs =>
      cases xs with
      | nil =>
        have hx : r = x := by simpa using hmem
        rw [hx]
      | cons y ys => simp at hlen
  subst hs
  exact ⟨by simp [LockManager.release], fun r' => by simp [LockManager.acquire]⟩

/-- Witness for C4: "b" cannot release the lock "a" holds; "a" releases it
and then "c" can acquire it. -/
theorem releaseCallLock_semantics_witness :
    ("b" ∉ ["a"] ∧
      LockManager.release ["a"] "b" = Except.error UsageError.NotHeld) ∧
    ("a" ∈ ["a"] ∧
      LockManager.release ["a"] "a" = Except.ok [] ∧
      LockManager.acquire [] "c" = Except.ok (true, ["c"])) :=
  ⟨⟨by decide, (releaseCallLock_semantics ["a"] "b").1 (by decide)⟩,
   ⟨by decide,
    ((releaseCallLock_semantics ["a"] "a").2 (by decide) (by decide)).1,
    ((releaseCallLock_semantics ["a"] "a").2 (by decide) (by decide)).2 "c"⟩⟩

/-- C5: at every state reachable by a sequence of acquire/release
operations from the initial unheld lock, at most one requester holds the
call lock. -/
theorem callLock_atMostOneHolder (ops : List LockOp) (a b : String)
    (ha : LockManager.isHeldBy (runLockOps ops) a = true)
    (hb : LockManager.isHeldBy (runLockOps ops) b = true) : a = b := by
  have hlen := runLockOps_length_le_one ops
  have ha' : a ∈ runLockOps ops := by
    simpa [LockManager.isHeldBy] using ha
  have hb' : b ∈ runLockOps ops := by
    simpa [LockManager.isHeldBy] using hb
  cases hs : runLockOps ops with
  | nil => rw [hs] at ha'; cases ha'
  | cons x xs =>
    rw [hs] at ha' hb' hlen
    cases xs with
    | nil =>
      have hax : a = x := by simpa using ha'
      have hbx : b = x := by simpa using hb'
      rw [hax, hbx]
    | cons y ys => simp at hlen

/-- Witness for C5 on the trace where "a" acquires the lock. -/
theorem callLock_atMostOneHolder_witness :
    LockManager.isHeldBy (runLockOps [LockOp.acq "a"]) "a" = true ∧
    "a" = "a" :=
  ⟨by decide,
   callLock_atMostOneHolder [LockOp.acq "a"] "a" "a" (by decide) (by decide)⟩

/-- C6: a relative-valueType `PHONE_MUTE` (code 47) signal negates the
tracked `muted` flag from every prior value, so two such signals in a row
restore the original value; in particular `false` becomes `true` and then
`false` again. -/
theorem phoneMute_relative_toggles (st : CCState) :
    (applySignal ⟨SignalType.PHONE_MUTE, true, ValueType.RELATIVE⟩ st).muted
      = !st.muted ∧
    (applySignal ⟨SignalType.PHONE_MUTE, true, ValueType.RELATIVE⟩
      (applySignal ⟨SignalType.PHONE_MUTE, true, ValueType.RELATIVE⟩
        st)).muted = st.muted ∧
    SignalType.code SignalType.PHONE_MUTE = 47 := by
  cases st
  simp [applySignal, axisOf, setFlag, getFlag, SignalType.code]

/-- C7: an absolute-valueType signal sets the flag of its tracked axis to
the signal's literal value, regardless of the prior state. -/
theorem absoluteSignal_sets_flag (t : SignalType) (a : CCOp)
    (h : axisOf t = some a) (st : CCState) (v : Bool) :
    getFlag a (applySignal ⟨t, v, ValueType.ABSOLUTE⟩ st) = v := by
  simp only [applySignal, h]
  cases a <;> cases st <;> simp [getFlag, setFlag]

/-- Witness for C7: an absolute `PHONE_MUTE` signal with value 1 mutes, at
the initial state. -/
theorem absoluteSignal_sets_flag_witness :
    axisOf SignalType.PHONE_MUTE = some CCOp.mute ∧
    getFlag CCOp.mute
      (applySignal ⟨SignalType.PHONE_MUTE, true, ValueType.ABSOLUTE⟩
        initialCCState) = true :=
  ⟨rfl,
   absoluteSignal_sets_flag SignalType.PHONE_MUTE CCOp.mute rfl
     initialCCState true⟩

/-- C8: device detach or transport loss resets the call lock to unheld and
all four call-control flags to false, and the signal sequence terminates
normally: no further element is delivered and no error is raised. -/
theorem detach_resets_session (s : SessionState) :
    (detach s).lock = [] ∧
    (detach s).flags.offHook = false ∧
    (detach s).flags.ringing = false ∧
    (detach s).flags.muted = false ∧
    (detach s).flags.held = false ∧
    (detach s).streamDone = true ∧
    (detach s).streamErrored = false ∧
    ∀ sig : DeviceSignal, deliverSignal (detach s) sig = none := by
  refine ⟨rfl, rfl, rfl, rfl, rfl, rfl, rfl, fun sig => ?_⟩
  simp [deliverSignal, detach]

/-- C9: the `SignalType` enumeration is exactly the closed set of members
listed in `browser-esm/index.d.ts`, each name bound to its documented
numeric code, with no duplicates and no other members. -/
theorem signalType_closed_enumeration :
    (∀ t : SignalType, t ∈ allSignalTypes) ∧
    allSignalTypes.Nodup ∧
    allSignalTypes.map SignalType.code
      = [32, 33, 35, 36, 42, 43, 47, 49, 80, 112, 116, 151, 158,
         176, 177, 178, 179, 180, 181, 182, 183, 184, 185, 186, 187,
         233, 234, 65533] := by
  refine ⟨fun t => ?_, by decide, by decide⟩
  cases t <;> simp [allSignalTypes]

/-- C10: on each device-list emission, the sample wires call control to a
device exactly when the emitted list contains exactly one device, and then
to that unique device; an empty list or a list of two or more devices wires
nothing. -/
theorem sample_wires_single_device (ds : List Device) :
    ((onDeviceList ds).isSome ↔ ds.length = 1) ∧
    ∀ d : Device, (onDeviceList ds = some d ↔ ds = [d]) := by
  cases ds with
  | nil => simp [onDeviceList]
  | cons x xs =>
    cases xs with
    | nil => simp [onDeviceList]
    | cons y ys => simp [onDeviceList]
